import Mathlib

/-!
Verification of the Story Weaver synthesis and revision engine.

This file gives a shallow embedding of the core of the AIbookgenerator
repository: the data model (`src/types.ts`), the revision/undo state held by
the `App` component (`src/App.tsx` and the keyed revision), the generation
and regeneration pipelines of the gemini service modules, and the PDF export
loop of `src/components/BookViewer.tsx`.

Network calls to the generative upstream are modelled as oracle parameters:
a structured-text call is a function from the composed user prompt to an
`Except String` result, and an image-synthesis call is a function from the
composed image prompt to an `Except String` base64 payload.  Quantifying a
theorem over these oracles quantifies over every possible upstream behaviour.
-/

namespace StoryWeaver

/-- Art styles offered by the form (`src/types.ts`, `enum ArtStyle`).
In TypeScript each enum member is a Japanese display string; prompts
interpolate that string. -/
inductive ArtStyle
  | watercolor
  | anime
  | crayon
  | digital
deriving DecidableEq

/-- The string value of an `ArtStyle` member, as interpolated by
`${artStyle}` in the source templates. -/
def ArtStyle.str : ArtStyle → String
  | .watercolor => "水彩画風"
  | .anime => "アニメ風"
  | .crayon => "クレヨン画風"
  | .digital => "デジタルアート風"

/-- `Page` from `src/types.ts`: integer id, story text, image reference,
optional original image-generation prompt. -/
structure Page where
  id : Nat
  text : String
  imageUrl : String
  imagePrompt : Option String
deriving DecidableEq

/-- `Story` from `src/types.ts`. -/
structure Story where
  title : String
  coverImageUrl : String
  characterDescription : String
  artStyle : ArtStyle
  pages : List Page
  afterword : String
deriving DecidableEq

/-- The `AppState` union of `src/App.tsx` (`'FORM' | 'LOADING' | 'PREVIEW'`).
The keyed revision adds an `API_SETUP` screen, which none of the verified
properties touch. -/
inductive AppState
  | FORM
  | LOADING
  | PREVIEW
deriving DecidableEq

/-- The mutable state owned by the `App` component: `appState`, `story`,
`storyHistory` and `error` (`useState` hooks in `src/App.tsx`). -/
structure AppSt where
  appState : AppState
  story : Option Story
  storyHistory : List Story
  error : Option String
deriving DecidableEq

/-- The fresh application state: form shown, no story, empty history. -/
def initialAppSt : AppSt := ⟨AppState.FORM, none, [], none⟩

/-- `data:image/png;base64,` + payload, as built at every image call site. -/
def dataUrl (b : String) : String := "data:image/png;base64," ++ b

/-- Composition of a page image prompt, from the template
`` `${page.imagePrompt}, in the style of ${artStyle}. ${characterDescription}` ``
used identically in `src/App.tsx` (full generation), in
`generateStoryAndImages` of the service modules, and in `regeneratePage`. -/
def buildPageImagePrompt (basePrompt : String) (style : ArtStyle)
    (characterDescription : String) : String :=
  basePrompt ++ ", in the style of " ++ style.str ++ ". " ++ characterDescription

/-- Composition of the cover prompt of the `src/App.tsx` full-generation
pipeline: `` `Book cover illustration for a children's book titled
'${title}'. Featuring the main character: ${cd}. Style: ${artStyle}.` `` -/
def buildCoverImagePrompt (title characterDescription : String)
    (style : ArtStyle) : String :=
  "Book cover illustration for a children\x27s book titled \x27" ++ title ++
  "\x27. Featuring the main character: " ++ characterDescription ++
  ". Style: " ++ style.str ++ "."

/-! ## Page regeneration (`regeneratePage` + `handlePageRegeneration`) -/

/-- The decoded response shape of the page-regeneration text call
(`pageRegenSchema`: `new_text`, `new_image_prompt`). -/
structure PageRegenResult where
  newText : String
  newImagePrompt : String
deriving DecidableEq

/-- The user prompt template of `regeneratePage` (service modules). -/
def pageRegenUserPrompt (storyContext pageText instruction
    characterDescription : String) (style : ArtStyle) : String :=
  "\n    物語のこれまでのあらすじ: " ++ storyContext ++
  "\n\n    現在のページ内容:\n    - テキスト: \"" ++ pageText ++
  "\"\n\n    ユーザーからの修正指示: \"" ++ instruction ++
  "\"\n\n    上記の指示に基づき、このページの新しいテキストと、イラスト生成用の新しい英語プロンプトをJSON形式で生成してください。\n    イラストのプロンプトには、必ず主人公の特徴「" ++
  characterDescription ++ "」とアートスタイル「" ++ style.str ++
  "」を反映させてください。\n    "

/-- The two-call sub-pipeline of `regeneratePage`: one structured-text call
with the regeneration prompt, then one image call with the returned
`new_image_prompt` composed with style and character description.  Either
failure aborts the whole function (the thrown error propagates). -/
def regeneratePageCalls (style : ArtStyle) (characterDescription : String)
    (textCall : String → Except String PageRegenResult)
    (imageCall : String → Except String String)
    (userPrompt : String) : Except String (String × String) :=
  match textCall userPrompt with
  | .error e => .error e
  | .ok regenData =>
    match imageCall (buildPageImagePrompt regenData.newImagePrompt style
        characterDescription) with
    | .error e => .error e
    | .ok b => .ok (regenData.newText, dataUrl b)

/-- `handlePageRegeneration` of `src/App.tsx` (identical in the keyed
revision).  Early-returns when no story exists; on success replaces exactly
the targeted page's `text` and `imageUrl` and appends the new story to the
history; on any thrown error only `error` is set.  `finally` always returns
the app to `PREVIEW`.  (`story.characterDescription || ''` coincides with
`story.characterDescription` for strings, since the falsy string is `''`
itself.  An out-of-range index makes `currentPage.text` throw inside the
`try`, landing in the same catch branch.) -/
def handlePageRegeneration (st : AppSt) (pageIndex : Nat)
    (instruction : String)
    (textCall : String → Except String PageRegenResult)
    (imageCall : String → Except String String) : AppSt :=
  match st.story with
  | none => st
  | some story =>
    match story.pages[pageIndex]? with
    | none =>
      { st with appState := AppState.PREVIEW,
                error := some "ページの再生成中にエラーが発生しました。" }
    | some currentPage =>
      match regeneratePageCalls story.artStyle story.characterDescription
          textCall imageCall
          (pageRegenUserPrompt
            (String.intercalate "\n"
              (List.map Page.text (List.take pageIndex story.pages)))
            currentPage.text instruction story.characterDescription
            story.artStyle) with
      | .error e => { st with appState := AppState.PREVIEW, error := some e }
      | .ok (newText, newImageUrl) =>
        let newPage : Page :=
          { currentPage with text := newText, imageUrl := newImageUrl }
        let newStory : Story :=
          { story with pages := story.pages.set pageIndex newPage }
        ⟨AppState.PREVIEW, some newStory,
          st.storyHistory ++ [newStory], none⟩

/-! ## Cover regeneration (`regenerateCover` + `handleCoverRegeneration`) -/

/-- The decoded response shape of the cover-regeneration text call
(`coverRegenSchema`: `new_title`, `new_image_prompt`). -/
structure CoverRegenResult where
  newTitle : String
  newImagePrompt : String
deriving DecidableEq

/-- The user prompt template of `regenerateCover`. -/
def coverRegenUserPrompt (currentTitle instruction
    characterDescription : String) (style : ArtStyle) : String :=
  "\n    現在の表紙の情報:\n    - タイトル: \"" ++ currentTitle ++
  "\"\n\n    ユーザーからの修正指示: \"" ++ instruction ++
  "\"\n\n    上記の指示に基づき、この絵本の新しいタイトルと、表紙イラスト生成用の新しい英語プロンプトをJSON形式で生成してください。\n    イラストのプロンプトには、必ず主人公の特徴「" ++
  characterDescription ++ "」とアートスタイル「" ++ style.str ++
  "」を反映させてください。\n    "

/-- The cover image prompt of `regenerateCover`: the fixed cover framing
followed by the AI-revised `new_image_prompt`. -/
def regenCoverImagePrompt (newTitle characterDescription : String)
    (style : ArtStyle) (extra : String) : String :=
  "Book cover illustration for a children\x27s book titled \x27" ++ newTitle ++
  "\x27. Featuring the main character: " ++ characterDescription ++
  ". Style: " ++ style.str ++ ". " ++ extra

/-- The two-call sub-pipeline of `regenerateCover`. -/
def regenerateCoverCalls (style : ArtStyle) (characterDescription : String)
    (textCall : String → Except String CoverRegenResult)
    (imageCall : String → Except String String)
    (userPrompt : String) : Except String (String × String) :=
  match textCall userPrompt with
  | .error e => .error e
  | .ok regenData =>
    match imageCall (regenCoverImagePrompt regenData.newTitle
        characterDescription style regenData.newImagePrompt) with
    | .error e => .error e
    | .ok b => .ok (regenData.newTitle, dataUrl b)

/-- `handleCoverRegeneration` of `src/App.tsx`: on success replaces exactly
`title` and `coverImageUrl` and appends the new story to the history. -/
def handleCoverRegeneration (st : AppSt) (instruction : String)
    (textCall : String → Except String CoverRegenResult)
    (imageCall : String → Except String String) : AppSt :=
  match st.story with
  | none => st
  | some story =>
    match regenerateCoverCalls story.artStyle story.characterDescription
        textCall imageCall
        (coverRegenUserPrompt story.title instruction
          story.characterDescription story.artStyle) with
    | .error e => { st with appState := AppState.PREVIEW, error := some e }
    | .ok (newTitle, newCoverImageUrl) =>
      let newStory : Story :=
        { story with title := newTitle, coverImageUrl := newCoverImageUrl }
      ⟨AppState.PREVIEW, some newStory, st.storyHistory ++ [newStory], none⟩

/-! ## Full generation, `src/App.tsx` revision (`handleStoryGeneration`)

`generateStoryText` (the first structured call) is not part of the verified
state transition beyond its decoded result, which `src/App.tsx` consumes as
a template holding `title`, `characterDescription`, `artStyle`, `afterword`
and one entry per page carrying `id`, `text` and `imagePrompt`. -/

/-- One page of the decoded story template, as consumed by
`handleStoryGeneration` in `src/App.tsx` (`page.imagePrompt` builds the
image prompt; `{...page, imageUrl}` completes it into a `Page`). -/
structure TemplatePage where
  id : Nat
  text : String
  imagePrompt : String
deriving DecidableEq

/-- The decoded result of `generateStoryText`, spread into the in-progress
`Story` by `{...storyTemplate, coverImageUrl, pages: []}`. -/
structure StoryTemplate where
  title : String
  characterDescription : String
  artStyle : ArtStyle
  pages : List TemplatePage
  afterword : String
deriving DecidableEq

/-- `const completedPage: Page = { ...page, imageUrl }` (`src/App.tsx`). -/
def completedPage (p : TemplatePage) (imageUrl : String) : Page :=
  ⟨p.id, p.text, imageUrl, some p.imagePrompt⟩

/-- The sequential page-image loop of `handleStoryGeneration`
(`src/App.tsx`): page images are requested in ascending order; on a failure
the pages completed so far are kept (they were the last value passed to
`setStory`) and the error aborts the loop.  The image oracle takes the
1-based call index (0 is the cover) and the composed prompt. -/
def generatePagesApp (style : ArtStyle) (characterDescription : String)
    (imageCall : Nat → String → Except String String) :
    List TemplatePage → Nat → List Page × Option String
  | [], _ => ([], none)
  | p :: rest, i =>
    match imageCall (i + 1)
        (buildPageImagePrompt p.imagePrompt style characterDescription) with
    | .error e => ([], some e)
    | .ok b =>
      match generatePagesApp style characterDescription imageCall rest (i + 1) with
      | (ps, err) => (completedPage p (dataUrl b) :: ps, err)

/-- `handleStoryGeneration` of `src/App.tsx`.  The pipeline begins by
clearing `error`, `story` and `storyHistory`; the prior state is never read
again.  On success the fully assembled story becomes current and the sole
history snapshot; on any failure the app returns to the form with the error
message, history left empty, and the working `story` value left at whatever
was last set — `none` if the text or cover call failed, the partial
in-progress story if a page-image call failed.  The cover and page prompts
interpolate the `artStyle` argument of the handler. -/
def handleStoryGeneration (st : AppSt) (style : ArtStyle)
    (textCall : Except String StoryTemplate)
    (imageCall : Nat → String → Except String String) : AppSt :=
  match textCall with
  | .error e => ⟨AppState.FORM, none, [], some e⟩
  | .ok tmpl =>
    match imageCall 0
        (buildCoverImagePrompt tmpl.title tmpl.characterDescription style) with
    | .error e => ⟨AppState.FORM, none, [], some e⟩
    | .ok coverB =>
      let base : Story :=
        ⟨tmpl.title, dataUrl coverB, tmpl.characterDescription,
          tmpl.artStyle, [], tmpl.afterword⟩
      match generatePagesApp style tmpl.characterDescription imageCall
          tmpl.pages 0 with
      | (ps, some e) =>
        ⟨AppState.FORM, some { base with pages := ps }, [], some e⟩
      | (ps, none) =>
        let finalStory : Story := { base with pages := ps }
        ⟨AppState.PREVIEW, some finalStory, [finalStory], none⟩

/-! ## Full generation, keyed revision (`generateStoryAndImages`)

The service revision that reads the API key from localStorage
(`src/unnamed/part_005`, second module) and its caller
(`src/unnamed/part_006`). -/

/-- One page of the decoded upstream draft (`storySchema`:
`page_number`, `text`, `image_prompt`). -/
structure DraftPage where
  pageNumber : Nat
  text : String
  imagePrompt : String
deriving DecidableEq

/-- The decoded upstream draft (`storySchema`: `title`,
`character_description`, `pages`, `afterword`). -/
structure StoryDraft where
  title : String
  characterDescription : String
  pages : List DraftPage
  afterword : String
deriving DecidableEq

/-- The cover prompt of the keyed `generateStoryAndImages`. -/
def coverPromptKeyed (title characterDescription : String)
    (style : ArtStyle) : String :=
  "A beautiful and captivating book cover illustration for a children\x27s storybook titled \"" ++
  title ++ "\". The main character is: " ++ characterDescription ++
  ". Style: " ++ style.str ++
  ". IMPORTANT: Do NOT write any text or letters on the image itself. The image should be purely illustrative."

/-- The page-image calls of the keyed `generateStoryAndImages`.  In the
source they are issued through `Promise.all`; on success the assembled list
pairs each draft page with its image in draft order
(`pageImageUrls[index]`), which this sequential model reproduces exactly,
and any rejection aborts the whole pipeline. -/
def genPages (style : ArtStyle) (characterDescription : String)
    (imageCall : Nat → String → Except String String) :
    List DraftPage → Nat → Except String (List Page)
  | [], _ => .ok []
  | p :: rest, i =>
    match imageCall (i + 1)
        (buildPageImagePrompt p.imagePrompt style characterDescription) with
    | .error e => .error e
    | .ok b =>
      match genPages style characterDescription imageCall rest (i + 1) with
      | .error e => .error e
      | .ok ps => .ok (Page.mk p.pageNumber p.text (dataUrl b) none :: ps)

/-- The keyed `generateStoryAndImages` (`src/unnamed/part_005`, lines
219–311).  Its parameter list has no page count: the `pageCount` value the
caller passes is dropped.  The assembled pages copy `page_number` into `id`
verbatim and carry no `imagePrompt` field. -/
def generateStoryAndImages (style : ArtStyle)
    (textCall : Except String StoryDraft)
    (imageCall : Nat → String → Except String String) :
    Except String Story :=
  match textCall with
  | .error e => .error e
  | .ok storyData =>
    match imageCall 0
        (coverPromptKeyed storyData.title storyData.characterDescription
          style) with
    | .error e => .error e
    | .ok coverB =>
      match genPages style storyData.characterDescription imageCall
          storyData.pages 0 with
      | .error e => .error e
      | .ok ps =>
        .ok ⟨storyData.title, dataUrl coverB, storyData.characterDescription,
          style, ps, storyData.afterword⟩

/-- `handleStoryGeneration` of the keyed revision
(`src/unnamed/part_006`, lines 35–57): it accepts `pageCount` from the form
and forwards it to `generateStoryAndImages` — whose signature has no such
parameter, so the argument is silently discarded. -/
def handleStoryGenerationKeyed (st : AppSt) (pageCount : Nat)
    (style : ArtStyle) (textCall : Except String StoryDraft)
    (imageCall : Nat → String → Except String String) : AppSt :=
  match generateStoryAndImages style textCall imageCall with
  | .error e => ⟨AppState.FORM, none, [], some e⟩
  | .ok s => ⟨AppState.PREVIEW, some s, [s], none⟩

/-! ## Revision history (`handleUndo`, `handleTextEditSave`) -/

/-- The commit pattern shared by every commit site in `src/App.tsx`
(`setStory(newStoryState); setStoryHistory(prev => [...prev, newStoryState])`
at lines 101–102 and 128–129, and the text-edit save at line 153): the
committed story becomes current and is appended to the history. -/
def commitStory (st : AppSt) (b : Story) : AppSt :=
  { st with story := some b, storyHistory := st.storyHistory ++ [b] }

/-- The current story of the revision history: its last element. -/
def currentStory (st : AppSt) : Option Story := st.storyHistory.getLast?

/-- `handleTextEditSave` of `src/App.tsx`: commits the current working
story as a new snapshot. -/
def handleTextEditSave (st : AppSt) : AppSt :=
  match st.story with
  | none => st
  | some s => { st with storyHistory := st.storyHistory ++ [s] }

/-- `handleUndo` of `src/App.tsx`: when more than one snapshot exists, pops
the last and makes the new last current; otherwise a no-op. -/
def handleUndo (st : AppSt) : AppSt :=
  if st.storyHistory.length > 1 then
    { st with story := st.storyHistory.dropLast.getLast?,
              storyHistory := st.storyHistory.dropLast }
  else st

/-! ## PDF export (`handleDownloadPdf` in `src/components/BookViewer.tsx`) -/

/-- One logical page rendered into the export document; `page i` is the
0-based story page index. -/
inductive PdfElem
  | cover
  | page (idx : Nat)
  | afterword
deriving DecidableEq

/-- The element of the visible book display that carries the `pdf-page`
marker, depending on the viewer position `currentPageIndex` (`-1` shows the
cover, `story.pages.length` the afterword, otherwise the page at that
index; `PageContent` with `isPdfPage` adds the `pdf-page` class, and the
visible page `div` carries it literally). -/
def visiblePdfElems (story : Story) (currentPageIndex : Int) : List PdfElem :=
  if currentPageIndex = -1 then [PdfElem.cover]
  else if currentPageIndex = (story.pages.length : Int) then [PdfElem.afterword]
  else
    match story.pages[currentPageIndex.toNat]? with
    | some _ => [PdfElem.page currentPageIndex.toNat]
    | none => []

/-- The elements of the off-screen export block (`<div className="hidden">`):
cover, every story page in ascending order, afterword — each carrying the
`pdf-page` marker. -/
def hiddenPdfElems (story : Story) : List PdfElem :=
  PdfElem.cover ::
    ((List.range story.pages.length).map PdfElem.page ++ [PdfElem.afterword])

/-- `document.querySelectorAll('.pdf-page')` returns every element carrying
the marker in document order: the visible book display precedes the hidden
export block. -/
def pdfPageElems (story : Story) (currentPageIndex : Int) : List PdfElem :=
  visiblePdfElems story currentPageIndex ++ hiddenPdfElems story

/-- The export document: the captured elements drawn into it, in order, and
the number of explicit `pdf.addPage()` insertions performed. -/
structure PdfDoc where
  drawn : List PdfElem
  addPageCalls : Nat
deriving DecidableEq

/-- The capture loop of `handleDownloadPdf`: for each matched element, an
`addPage` when it is not the first (`if (i > 0)`), then the raster image is
drawn into the current page slot. -/
def exportFold (elems : List PdfElem) : PdfDoc :=
  elems.foldl
    (fun doc e =>
      ⟨doc.drawn ++ [e],
        doc.addPageCalls + (if doc.drawn.length > 0 then 1 else 0)⟩)
    ⟨[], 0⟩

/-- `handleDownloadPdf` as a function of the story and the viewer position:
captures every element matched by `.pdf-page` and assembles the document. -/
def handleDownloadPdf (story : Story) (currentPageIndex : Int) : PdfDoc :=
  exportFold (pdfPageElems story currentPageIndex)

/-- The story produced by a successful page regeneration: the page at the
targeted index is replaced by one holding the new text and image while
keeping its `id` and `imagePrompt` (`{...updatedPages[pageIndex], text:
newText, imageUrl: newImageUrl}`); every other field is spread unchanged. -/
def regeneratedStory (story : Story) (i : Nat) (p : Page)
    (newText newImageUrl : String) : Story :=
  { story with pages :=
      story.pages.set i ⟨p.id, newText, newImageUrl, p.imagePrompt⟩ }

/-! ## Concrete sample values (used by witnesses and counterexamples) -/

/-- A concrete first page. -/
def samplePage1 : Page := ⟨1, "そらを とんだよ", dataUrl "P1", some "a white cat flying"⟩

/-- A concrete second page. -/
def samplePage2 : Page := ⟨2, "つきに ついたよ", dataUrl "P2", some "a white cat on the moon"⟩

/-- A concrete two-page story. -/
def sampleStory : Story :=
  ⟨"ソラのつきたび", dataUrl "COVER", "白い猫のソラ", ArtStyle.watercolor,
    [samplePage1, samplePage2], "おしまい"⟩

/-- `sampleStory` with a different title. -/
def sampleStoryB : Story := { sampleStory with title := "べつのタイトル" }

/-- A preview state whose single history snapshot is `sampleStory`. -/
def samplePreviewSt : AppSt :=
  ⟨AppState.PREVIEW, some sampleStory, [sampleStory], none⟩

/-- An image oracle that always succeeds with the payload `IMG`. -/
def okImg : Nat → String → Except String String := fun _ _ => .ok "IMG"

/-- A concrete one-page story template for full generation. -/
def sampleTemplate : StoryTemplate :=
  ⟨"ソラのつきたび", "白い猫のソラ", ArtStyle.watercolor,
    [⟨1, "そらを とんだよ", "a white cat flying"⟩], "おしまい"⟩

/-- An image oracle whose cover call (index 0) succeeds and whose page
calls all fail with an upstream error. -/
def coverOnlyImg : Nat → String → Except String String :=
  fun n _ => if n = 0 then .ok "CB" else .error "HTTP 500"

/-- An eight-page upstream draft, numbered 1..8 — the shape the hard-coded
generation prompt (「物語8ページ」) asks the model for. -/
def eightPageDraft : StoryDraft :=
  ⟨"ソラのだいぼうけん", "こねこのソラ",
    [⟨1, "p1", "i1"⟩, ⟨2, "p2", "i2"⟩, ⟨3, "p3", "i3"⟩, ⟨4, "p4", "i4"⟩,
     ⟨5, "p5", "i5"⟩, ⟨6, "p6", "i6"⟩, ⟨7, "p7", "i7"⟩, ⟨8, "p8", "i8"⟩],
    "おわり"⟩

/-- A one-page upstream draft whose single page is numbered 7. -/
def badNumberDraft : StoryDraft := ⟨"T", "CD", [⟨7, "ほん", "a cat"⟩], "AW"⟩

/-- A two-page upstream draft numbered in order. -/
def goodDraft : StoryDraft :=
  ⟨"T", "CD", [⟨1, "p1", "i1"⟩, ⟨2, "p2", "i2"⟩], "AW"⟩

/-- The story assembled from `badNumberDraft` when every image call
returns `IMG`. -/
def badNumberStory : Story :=
  ⟨"T", dataUrl "IMG", "CD", ArtStyle.watercolor,
    [⟨7, "ほん", dataUrl "IMG", none⟩], "AW"⟩

/-- A one-page story for the export counterexample. -/
def onePageStory : Story :=
  ⟨"T", dataUrl "C", "CD", ArtStyle.watercolor,
    [⟨1, "ほん", dataUrl "P", none⟩], "AW"⟩

/-! ## Helper lemmas -/

/-- Success characterisation of `handlePageRegeneration`: when the story
exists, the page index is in range and both upstream calls succeed, the
handler commits exactly one new story whose targeted page holds the new
text and image and keeps its `id` and `imagePrompt`. -/
theorem handlePageRegeneration_ok (st : AppSt) (story : Story) (i : Nat)
    (p : Page) (instr : String)
    (t : String → Except String PageRegenResult)
    (f : String → Except String String)
    (r : PageRegenResult) (b : String)
    (hs : st.story = some story) (hp : story.pages[i]? = some p)
    (ht : t (pageRegenUserPrompt
        (String.intercalate "\n"
          (List.map Page.text (List.take i story.pages)))
        p.text instr story.characterDescription story.artStyle) =
      Except.ok r)
    (hi : f (buildPageImagePrompt r.newImagePrompt story.artStyle
        story.characterDescription) = Except.ok b) :
    handlePageRegeneration st i instr t f =
      ⟨AppState.PREVIEW, some (regeneratedStory story i p r.newText (dataUrl b)),
        st.storyHistory ++ [regeneratedStory story i p r.newText (dataUrl b)],
        none⟩ := by
  simp only [handlePageRegeneration, regeneratePageCalls, hs, hp, ht, hi,
    regeneratedStory]

/-- Failure characterisation of `handlePageRegeneration` when the image
call fails after the text call succeeded: only `error` is set and the app
returns to `PREVIEW`; `story` and `storyHistory` are those of `st`. -/
theorem handlePageRegeneration_imgfail (st : AppSt) (story : Story) (i : Nat)
    (p : Page) (instr : String)
    (t : String → Except String PageRegenResult)
    (f : String → Except String String)
    (r : PageRegenResult) (e : String)
    (hs : st.story = some story) (hp : story.pages[i]? = some p)
    (ht : t (pageRegenUserPrompt
        (String.intercalate "\n"
          (List.map Page.text (List.take i story.pages)))
        p.text instr story.characterDescription story.artStyle) =
      Except.ok r)
    (hi : f (buildPageImagePrompt r.newImagePrompt story.artStyle
        story.characterDescription) = Except.error e) :
    handlePageRegeneration st i instr t f =
      { st with appState := AppState.PREVIEW, error := some e } := by
  simp only [handlePageRegeneration, regeneratePageCalls, hs, hp, ht, hi]

/-- `genPages` preserves the draft's `page_number` sequence as the `id`
sequence of the assembled pages. -/
theorem genPages_map_id (style : ArtStyle) (cd : String)
    (f : Nat → String → Except String String) :
    ∀ (ds : List DraftPage) (i : Nat) (ps : List Page),
      genPages style cd f ds i = Except.ok ps →
      ps.map Page.id = ds.map DraftPage.pageNumber := by
  intro ds
  induction ds with
  | nil =>
    intro i ps h
    simp only [genPages] at h
    cases h
    rfl
  | cons p rest ih =>
    intro i ps h
    simp only [genPages] at h
    split at h
    · cases h
    · split at h
      · cases h
      next ps' hrec =>
        cases h
        simp only [List.map]
        rw [ih (i + 1) ps' hrec]

/-- Every composed page image prompt decomposes around the art-style token
and the character description, in that order. -/
theorem buildPageImagePrompt_decomp (base : String) (style : ArtStyle)
    (cd : String) :
    ∃ u m v, buildPageImagePrompt base style cd =
      u ++ style.str ++ m ++ cd ++ v :=
  ⟨base ++ ", in the style of ", ". ", "", by
    simp [buildPageImagePrompt, String.append_assoc]⟩

/-! ## Claim theorems -/

/-- C1: Page regeneration is atomic.  For every state holding a story with
a page at the targeted index and every instruction, if the image call of
the page-regeneration sub-pipeline fails after the text call succeeded,
the history is unchanged (no new snapshot) and the working story — hence
the last history element — is unchanged: no state holds the new text
paired with the old image. -/
theorem pageRegen_atomic_on_image_failure (st : AppSt) (story : Story)
    (i : Nat) (p : Page) (instr : String)
    (t : String → Except String PageRegenResult)
    (f : String → Except String String)
    (r : PageRegenResult) (e : String)
    (hs : st.story = some story) (hp : story.pages[i]? = some p)
    (ht : t (pageRegenUserPrompt
        (String.intercalate "\n"
          (List.map Page.text (List.take i story.pages)))
        p.text instr story.characterDescription story.artStyle) =
      Except.ok r)
    (hi : f (buildPageImagePrompt r.newImagePrompt story.artStyle
        story.characterDescription) = Except.error e) :
    (handlePageRegeneration st i instr t f).storyHistory = st.storyHistory ∧
    (handlePageRegeneration st i instr t f).story = st.story ∧
    (handlePageRegeneration st i instr t f).storyHistory.getLast? =
      st.storyHistory.getLast? := by
  rw [handlePageRegeneration_imgfail st story i p instr t f r e hs hp ht hi]
  exact ⟨rfl, rfl, rfl⟩

/-- C1 witness: a concrete run — text call succeeds, image call returns an
upstream error — leaves `samplePreviewSt` with its story and single
snapshot intact. -/
theorem pageRegen_atomic_witness :
    (handlePageRegeneration samplePreviewSt 0 "もっと笑顔にして"
        (fun _ => Except.ok ⟨"えがおだよ", "a smiling cat"⟩)
        (fun _ => Except.error "HTTP 500")).storyHistory =
      samplePreviewSt.storyHistory ∧
    (handlePageRegeneration samplePreviewSt 0 "もっと笑顔にして"
        (fun _ => Except.ok ⟨"えがおだよ", "a smiling cat"⟩)
        (fun _ => Except.error "HTTP 500")).story = samplePreviewSt.story ∧
    (handlePageRegeneration samplePreviewSt 0 "もっと笑顔にして"
        (fun _ => Except.ok ⟨"えがおだよ", "a smiling cat"⟩)
        (fun _ => Except.error "HTTP 500")).storyHistory.getLast? =
      samplePreviewSt.storyHistory.getLast? :=
  pageRegen_atomic_on_image_failure samplePreviewSt sampleStory 0 samplePage1
    "もっと笑顔にして" _ _ ⟨"えがおだよ", "a smiling cat"⟩ "HTTP 500"
    rfl rfl rfl rfl

/-- C2 counterexample: starting from the fresh state, a full generation
whose text and cover calls succeed but whose first page-image call returns
an upstream error is a failed pipeline (`error` is set), yet the working
story value observed afterwards is the partial in-progress story (cover
attached, no pages) — not the pre-pipeline value `none`.  The pre-pipeline
state is therefore not restored, refuting the claim as stated. -/
theorem fullGen_failure_not_restored_cex :
    (handleStoryGeneration initialAppSt ArtStyle.watercolor
        (Except.ok sampleTemplate) coverOnlyImg).error = some "HTTP 500" ∧
    (handleStoryGeneration initialAppSt ArtStyle.watercolor
        (Except.ok sampleTemplate) coverOnlyImg).story ≠ initialAppSt.story := by
  constructor
  · rfl
  · decide

/-- C2 amended: no pipeline ever commits a partial story to history.  Page
and cover regeneration either leave both the story value and the history
exactly as before, or succeed and commit exactly one new story; each full
generation run either leaves the history empty (it is cleared when the
pipeline starts — the pre-pipeline story and history are not restored on
failure) or succeeds with the assembled story as the sole snapshot. -/
theorem pipelines_commit_only_on_success (st : AppSt) (i pc : Nat)
    (instr : String)
    (t : String → Except String PageRegenResult)
    (tc : String → Except String CoverRegenResult)
    (f : String → Except String String) (style : ArtStyle)
    (gt : Except String StoryTemplate) (gd : Except String StoryDraft)
    (g : Nat → String → Except String String) :
    (((handlePageRegeneration st i instr t f).storyHistory = st.storyHistory ∧
      (handlePageRegeneration st i instr t f).story = st.story) ∨
     ((handlePageRegeneration st i instr t f).error = none ∧
      ∃ s, (handlePageRegeneration st i instr t f).story = some s ∧
        (handlePageRegeneration st i instr t f).storyHistory =
          st.storyHistory ++ [s])) ∧
    (((handleCoverRegeneration st instr tc f).storyHistory = st.storyHistory ∧
      (handleCoverRegeneration st instr tc f).story = st.story) ∨
     ((handleCoverRegeneration st instr tc f).error = none ∧
      ∃ s, (handleCoverRegeneration st instr tc f).story = some s ∧
        (handleCoverRegeneration st instr tc f).storyHistory =
          st.storyHistory ++ [s])) ∧
    ((handleStoryGeneration st style gt g).storyHistory = [] ∨
     ((handleStoryGeneration st style gt g).error = none ∧
      ∃ s, (handleStoryGeneration st style gt g).story = some s ∧
        (handleStoryGeneration st style gt g).storyHistory = [s])) ∧
    ((handleStoryGenerationKeyed st pc style gd g).storyHistory = [] ∨
     ((handleStoryGenerationKeyed st pc style gd g).error = none ∧
      ∃ s, (handleStoryGenerationKeyed st pc style gd g).story = some s ∧
        (handleStoryGenerationKeyed st pc style gd g).storyHistory = [s])) := by
  refine ⟨?_, ?_, ?_, ?_⟩
  · unfold handlePageRegeneration
    split
    · exact Or.inl ⟨rfl, rfl⟩
    · split
      · exact Or.inl ⟨rfl, rfl⟩
      · split
        · exact Or.inl ⟨rfl, rfl⟩
        · exact Or.inr ⟨rfl, _, rfl, rfl⟩
  · unfold handleCoverRegeneration
    split
    · exact Or.inl ⟨rfl, rfl⟩
    · split
      · exact Or.inl ⟨rfl, rfl⟩
      · exact Or.inr ⟨rfl, _, rfl, rfl⟩
  · unfold handleStoryGeneration
    split
    · exact Or.inl rfl
    · split
      · exact Or.inl rfl
      · split
        · exact Or.inl rfl
        · exact Or.inr ⟨rfl, _, rfl, rfl⟩
  · unfold handleStoryGenerationKeyed
    split
    · exact Or.inl rfl
    · exact Or.inr ⟨rfl, _, rfl, rfl⟩

/-- C5: a successful page regeneration changes at most the targeted page's
`text` and `imageUrl`: the title, cover image reference, character
description, art style, afterword and every other page are unchanged, and
the targeted page becomes exactly the old page with the new text and
image. -/
theorem pageRegen_frame (st : AppSt) (story : Story) (i : Nat) (p : Page)
    (instr : String)
    (t : String → Except String PageRegenResult)
    (f : String → Except String String)
    (r : PageRegenResult) (b : String)
    (hs : st.story = some story) (hp : story.pages[i]? = some p)
    (ht : t (pageRegenUserPrompt
        (String.intercalate "\n"
          (List.map Page.text (List.take i story.pages)))
        p.text instr story.characterDescription story.artStyle) =
      Except.ok r)
    (hi : f (buildPageImagePrompt r.newImagePrompt story.artStyle
        story.characterDescription) = Except.ok b) :
    ∃ s', (handlePageRegeneration st i instr t f).story = some s' ∧
      s'.title = story.title ∧
      s'.coverImageUrl = story.coverImageUrl ∧
      s'.characterDescription = story.characterDescription ∧
      s'.artStyle = story.artStyle ∧
      s'.afterword = story.afterword ∧
      s'.pages.length = story.pages.length ∧
      (∀ j, j ≠ i → s'.pages[j]? = story.pages[j]?) ∧
      s'.pages[i]? =
        some ⟨p.id, r.newText, dataUrl b, p.imagePrompt⟩ := by
  rw [handlePageRegeneration_ok st story i p instr t f r b hs hp ht hi]
  have hlt : i < story.pages.length := by
    rcases List.getElem?_eq_some_iff.mp hp with ⟨h, _⟩
    exact h
  refine ⟨_, rfl, rfl, rfl, rfl, rfl, rfl, ?_, ?_, ?_⟩
  · simp [regeneratedStory]
  · intro j hj
    simp only [regeneratedStory]
    exact List.getElem?_set_ne (Ne.symm hj)
  · simp only [regeneratedStory]
    exact List.getElem?_set_self hlt

/-- C5 witness: regenerating page 2 (index 1) of `sampleStory` with both
calls succeeding leaves page 1, the title, cover, character description,
art style and afterword unchanged and rewrites exactly page 2. -/
theorem pageRegen_frame_witness :
    ∃ s', (handlePageRegeneration samplePreviewSt 1 "もっと笑顔にして"
        (fun _ => Except.ok ⟨"えがおだよ", "a smiling cat"⟩)
        (fun _ => Except.ok "NEW")).story = some s' ∧
      s'.title = sampleStory.title ∧
      s'.coverImageUrl = sampleStory.coverImageUrl ∧
      s'.characterDescription = sampleStory.characterDescription ∧
      s'.artStyle = sampleStory.artStyle ∧
      s'.afterword = sampleStory.afterword ∧
      s'.pages.length = sampleStory.pages.length ∧
      (∀ j, j ≠ 1 → s'.pages[j]? = sampleStory.pages[j]?) ∧
      s'.pages[1]? = some ⟨samplePage2.id, "えがおだよ", dataUrl "NEW",
        samplePage2.imagePrompt⟩ :=
  pageRegen_frame samplePreviewSt sampleStory 1 samplePage2 "もっと笑顔にして"
    _ _ ⟨"えがおだよ", "a smiling cat"⟩ "NEW" rfl rfl rfl rfl

/-- C6: for every instruction (the instruction only feeds the upstream
prompt, so quantifying over the oracles covers adversarial instructions), a
successful cover regeneration preserves `characterDescription` and
`artStyle` — and also the pages and the afterword — rewriting only the
title and the cover image reference. -/
theorem coverRegen_preserves_character_and_style (st : AppSt) (story : Story)
    (instr : String)
    (t : String → Except String CoverRegenResult)
    (f : String → Except String String)
    (r : CoverRegenResult) (b : String)
    (hs : st.story = some story)
    (ht : t (coverRegenUserPrompt story.title instr
        story.characterDescription story.artStyle) = Except.ok r)
    (hi : f (regenCoverImagePrompt r.newTitle story.characterDescription
        story.artStyle r.newImagePrompt) = Except.ok b) :
    ∃ s', (handleCoverRegeneration st instr t f).story = some s' ∧
      s'.characterDescription = story.characterDescription ∧
      s'.artStyle = story.artStyle ∧
      s'.pages = story.pages ∧
      s'.afterword = story.afterword ∧
      s'.title = r.newTitle ∧
      s'.coverImageUrl = dataUrl b := by
  simp only [handleCoverRegeneration, regenerateCoverCalls, hs, ht, hi]
  exact ⟨_, rfl, rfl, rfl, rfl, rfl, rfl, rfl⟩

/-- C6 witness: a concrete cover regeneration with an instruction that
explicitly asks to change the character keeps `characterDescription` and
`artStyle` of `sampleStory`. -/
theorem coverRegen_preserves_witness :
    ∃ s', (handleCoverRegeneration samplePreviewSt
        "主人公を犬に変えて、スタイルもアニメ風にして"
        (fun _ => Except.ok ⟨"あたらしいタイトル", "a new cover"⟩)
        (fun _ => Except.ok "NEWCOVER")).story = some s' ∧
      s'.characterDescription = sampleStory.characterDescription ∧
      s'.artStyle = sampleStory.artStyle ∧
      s'.pages = sampleStory.pages ∧
      s'.afterword = sampleStory.afterword ∧
      s'.title = "あたらしいタイトル" ∧
      s'.coverImageUrl = dataUrl "NEWCOVER" :=
  coverRegen_preserves_character_and_style samplePreviewSt sampleStory
    "主人公を犬に変えて、スタイルもアニメ風にして" _ _
    ⟨"あたらしいタイトル", "a new cover"⟩ "NEWCOVER" rfl rfl rfl

/-- C10: a successful page regeneration overwrites only the targeted
page's `text` and `imageUrl`; its optional `imagePrompt` field (and its
`id`) are carried over unchanged by the object spread, even though the new
image was synthesised from the freshly returned `new_image_prompt` (the
prompt in the `hi` hypothesis), not from the stored one. -/
theorem pageRegen_keeps_imagePrompt (st : AppSt) (story : Story) (i : Nat)
    (p : Page) (instr : String)
    (t : String → Except String PageRegenResult)
    (f : String → Except String String)
    (r : PageRegenResult) (b : String)
    (hs : st.story = some story) (hp : story.pages[i]? = some p)
    (ht : t (pageRegenUserPrompt
        (String.intercalate "\n"
          (List.map Page.text (List.take i story.pages)))
        p.text instr story.characterDescription story.artStyle) =
      Except.ok r)
    (hi : f (buildPageImagePrompt r.newImagePrompt story.artStyle
        story.characterDescription) = Except.ok b) :
    ∃ s' q, (handlePageRegeneration st i instr t f).story = some s' ∧
      s'.pages[i]? = some q ∧
      q.imagePrompt = p.imagePrompt ∧
      q.id = p.id ∧
      q.text = r.newText ∧
      q.imageUrl = dataUrl b := by
  rw [handlePageRegeneration_ok st story i p instr t f r b hs hp ht hi]
  have hlt : i < story.pages.length := by
    rcases List.getElem?_eq_some_iff.mp hp with ⟨h, _⟩
    exact h
  refine ⟨_, ⟨p.id, r.newText, dataUrl b, p.imagePrompt⟩, rfl, ?_, rfl, rfl,
    rfl, rfl⟩
  simp only [regeneratedStory]
  exact List.getElem?_set_self hlt

/-- C10 witness: a concrete successful regeneration of page 1 of
`sampleStory` keeps the page's stored `imagePrompt` (and id) while the
image was generated from the new prompt. -/
theorem pageRegen_keeps_imagePrompt_witness :
    ∃ s' q, (handlePageRegeneration samplePreviewSt 0 "そらを あおくして"
        (fun _ => Except.ok ⟨"あおいそら", "a blue sky cat"⟩)
        (fun _ => Except.ok "NEW2")).story = some s' ∧
      s'.pages[0]? = some q ∧
      q.imagePrompt = samplePage1.imagePrompt ∧
      q.id = samplePage1.id ∧
      q.text = "あおいそら" ∧
      q.imageUrl = dataUrl "NEW2" :=
  pageRegen_keeps_imagePrompt samplePreviewSt sampleStory 0 samplePage1
    "そらを あおくして" _ _ ⟨"あおいそら", "a blue sky cat"⟩ "NEW2"
    rfl rfl rfl rfl

/-- C3 (code bug): the keyed full-generation pipeline ignores the requested
page count.  `generateStoryAndImages` has no page-count parameter, so the
`pageCount` the form passes through `handleStoryGenerationKeyed` cannot
influence the result: with requested count 4 and the 8-page draft the
hard-coded prompt asks the model for, the committed Story has 8 pages, and
the whole run is literally identical for every `pageCount` value. -/
theorem fullGenKeyed_ignores_pageCount :
    ∃ s, (handleStoryGenerationKeyed initialAppSt 4 ArtStyle.watercolor
        (Except.ok eightPageDraft) okImg).story = some s ∧
      s.pages.length = 8 ∧ s.pages.length ≠ 4 ∧
      (∀ pc : Nat,
        handleStoryGenerationKeyed initialAppSt pc ArtStyle.watercolor
            (Except.ok eightPageDraft) okImg =
          handleStoryGenerationKeyed initialAppSt 4 ArtStyle.watercolor
            (Except.ok eightPageDraft) okImg) := by
  refine ⟨_, rfl, rfl, by decide, fun pc => rfl⟩

/-- C4 (code bug): `handleDownloadPdf` captures every element matching
`.pdf-page`, and the visible book display carries that class too, so a
one-page story viewed at the cover yields four captured pages — the
currently displayed cover duplicated in front of the hidden cover, page
and afterword — not `pages.length + 2`; each element after the first is
preceded by exactly one `addPage`, so three insertions happen. -/
theorem export_captures_visible_duplicate :
    (handleDownloadPdf onePageStory (-1)).drawn =
      [PdfElem.cover, PdfElem.cover, PdfElem.page 0, PdfElem.afterword] ∧
    (handleDownloadPdf onePageStory (-1)).drawn.length ≠
      onePageStory.pages.length + 2 ∧
    (handleDownloadPdf onePageStory (-1)).addPageCalls =
      onePageStory.pages.length + 2 := by
  exact ⟨rfl, by decide, rfl⟩

/-- C7: every page image-synthesis call — in the full-generation page loop
and in the page-regeneration sub-pipeline — is issued with a prompt that
contains the art-style token and the character description as substrings,
in that order, after the page-specific base prompt: two image oracles that
agree on all such prompts make both pipelines behave identically. -/
theorem pageImageCalls_prompt_contains (style : ArtStyle) (cd : String)
    (f g : Nat → String → Except String String)
    (fi gi : String → Except String String)
    (hfg : ∀ n q, (∃ u m v, q = u ++ style.str ++ m ++ cd ++ v) →
      f n q = g n q)
    (hio : ∀ q, (∃ u m v, q = u ++ style.str ++ m ++ cd ++ v) →
      fi q = gi q) :
    (∀ (ds : List DraftPage) (i : Nat),
      genPages style cd f ds i = genPages style cd g ds i) ∧
    (∀ (t : String → Except String PageRegenResult) (up : String),
      regeneratePageCalls style cd t fi up =
        regeneratePageCalls style cd t gi up) := by
  constructor
  · intro ds
    induction ds with
    | nil => intro i; rfl
    | cons p rest ih =>
      intro i
      have h1 := hfg (i + 1) _
        (buildPageImagePrompt_decomp p.imagePrompt style cd)
      simp only [genPages, h1, ih]
  · intro t up
    unfold regeneratePageCalls
    cases t up with
    | error e => rfl
    | ok r =>
      have h2 := hio _
        (buildPageImagePrompt_decomp r.newImagePrompt style cd)
      simp only [h2]

/-- C7 witness: a concrete instantiation of the agreement hypotheses (two
identical oracles) applied to a one-page draft and to a concrete
regeneration call. -/
theorem pageImageCalls_prompt_contains_witness :
    genPages ArtStyle.watercolor "白い猫のソラ" okImg
        [⟨1, "p", "a cat"⟩] 0 =
      genPages ArtStyle.watercolor "白い猫のソラ" okImg
        [⟨1, "p", "a cat"⟩] 0 ∧
    regeneratePageCalls ArtStyle.watercolor "白い猫のソラ"
        (fun _ => Except.ok ⟨"t", "q"⟩) (fun _ => Except.ok "B") "up" =
      regeneratePageCalls ArtStyle.watercolor "白い猫のソラ"
        (fun _ => Except.ok ⟨"t", "q"⟩) (fun _ => Except.ok "B") "up" :=
  have h := pageImageCalls_prompt_contains ArtStyle.watercolor "白い猫のソラ"
    okImg okImg (fun _ => Except.ok "B") (fun _ => Except.ok "B")
    (fun _ _ _ => rfl) (fun _ _ => rfl)
  ⟨h.1 [⟨1, "p", "a cat"⟩] 0, h.2 (fun _ => Except.ok ⟨"t", "q"⟩) "up"⟩

/-- C8: commit/undo round-trip.  If the current story is `A`, committing
`B` (appending it to the history) and then undoing restores `A` as current
and restores the pre-commit history. -/
theorem commit_undo_roundtrip (st : AppSt) (A B : Story)
    (hA : currentStory st = some A) (hAB : A ≠ B) :
    currentStory (handleUndo (commitStory st B)) = some A ∧
    (handleUndo (commitStory st B)).storyHistory = st.storyHistory ∧
    (handleUndo (commitStory st B)).story = some A := by
  have hne : st.storyHistory ≠ [] := by
    intro h
    rw [currentStory, h] at hA
    cases hA
  have hpos : 0 < st.storyHistory.length := List.length_pos.mpr hne
  have hcond : (commitStory st B).storyHistory.length > 1 := by
    simp only [commitStory, List.length_append, List.length_cons,
      List.length_nil]
    omega
  have hdrop : (commitStory st B).storyHistory.dropLast = st.storyHistory := by
    simp only [commitStory]
    exact List.dropLast_concat
  unfold handleUndo
  rw [if_pos hcond, hdrop]
  exact ⟨hA, rfl, hA⟩

/-- C8 witness: committing a retitled story over `samplePreviewSt` and
undoing restores `sampleStory` and the one-element history. -/
theorem commit_undo_roundtrip_witness :
    currentStory (handleUndo (commitStory samplePreviewSt sampleStoryB)) =
      some sampleStory ∧
    (handleUndo (commitStory samplePreviewSt sampleStoryB)).storyHistory =
      samplePreviewSt.storyHistory ∧
    (handleUndo (commitStory samplePreviewSt sampleStoryB)).story =
      some sampleStory :=
  commit_undo_roundtrip samplePreviewSt sampleStory sampleStoryB rfl
    (by decide)

/-- C9 counterexample: a successful full generation from a draft whose
single page is numbered 7 commits a Story whose page ids are `[7]`, not
the 1-based positions `[1]`: the ids are copied from the upstream
`page_number` values without validation. -/
theorem fullGen_page_id_not_position_cex :
    generateStoryAndImages ArtStyle.watercolor (Except.ok badNumberDraft)
        okImg = Except.ok badNumberStory ∧
    badNumberStory.pages.map Page.id ≠
      List.range' 1 badNumberStory.pages.length := by
  exact ⟨rfl, by decide⟩

/-- C9 amended: each page's id in a successfully generated Story equals
the corresponding upstream draft page's `page_number`, copied verbatim in
order; consequently the ids equal the 1-based positions exactly when the
upstream draft numbered its pages 1..N. -/
theorem fullGen_page_ids_from_draft (style : ArtStyle) (draft : StoryDraft)
    (f : Nat → String → Except String String) (s : Story)
    (h : generateStoryAndImages style (Except.ok draft) f = Except.ok s) :
    s.pages.map Page.id = draft.pages.map DraftPage.pageNumber ∧
    (draft.pages.map DraftPage.pageNumber =
        List.range' 1 draft.pages.length →
      s.pages.map Page.id = List.range' 1 s.pages.length) := by
  simp only [generateStoryAndImages] at h
  split at h
  · cases h
  · split at h
    · cases h
    next ps hps =>
      cases h
      have hmap := genPages_map_id style draft.characterDescription f
        draft.pages 0 ps hps
      have hl : ps.length = draft.pages.length := by
        have hc := congrArg List.length hmap
        simpa using hc
      refine ⟨hmap, ?_⟩
      intro hr
      rw [hmap, hr, hl]

/-- C9 witness: for a draft numbered 1..2 the committed page ids are
exactly the draft's page numbers. -/
theorem fullGen_page_ids_from_draft_witness :
    ∃ s, generateStoryAndImages ArtStyle.watercolor (Except.ok goodDraft)
        okImg = Except.ok s ∧
      s.pages.map Page.id = goodDraft.pages.map DraftPage.pageNumber :=
  ⟨_, rfl,
    (fullGen_page_ids_from_draft ArtStyle.watercolor goodDraft okImg _
      rfl).1⟩

end StoryWeaver
